import Mathlib

/-!
Verification of the SiteSage backend (`src/backend/app`), a web service that
crawls a URL, extracts SEO signals, computes a deterministic SEO score,
augments the result with AI insights and background Lighthouse metrics, and
persists reports with a guest-report retention sweep.

The Python source is shallowly embedded: pure functions become Lean
functions; Python `Optional[str]` becomes `Option String`; Python float
division in the score calculator is modelled with exact rationals (`ℚ`);
exception-raising code is modelled with `Except`; the background task's
database effects are modelled as explicit state passing with boolean flags
for the points where the code can raise.
-/

/- ===================================================================
   Score Calculator — services/crawler.py `_calculate_seo_score`
   =================================================================== -/

/-- From `services/crawler.py`, lines 145-206.  Mirrors the Python function
statement by statement.  Python's `if not title:` is true both for `None`
and for the empty string, hence the `t = ""` test in the `some` branch; the
same applies to `meta_description`.  `alt_percentage`, a Python float, is
modelled as an exact rational. -/
def _calculate_seo_score (title meta_description : Option String)
    (h1_count h2_count missing_alt_count image_count : Nat)
    (has_meta_viewport has_canonical : Bool) : Int :=
  let score : Int := 100
  -- Title checks (15 points)
  let score : Int :=
    match title with
    | none => score - 15
    | some t =>
      if t = "" then score - 15
      else if t.length < 30 then score - 5
      else if t.length > 60 then score - 5
      else score
  -- Meta description checks (20 points)
  let score : Int :=
    match meta_description with
    | none => score - 20
    | some d =>
      if d = "" then score - 20
      else if d.length < 120 then score - 5
      else if d.length > 160 then score - 5
      else score
  -- H1 checks (15 points)
  let score : Int :=
    if h1_count = 0 then score - 15
    else if h1_count > 1 then score - 10
    else score
  -- H2 checks (5 points)
  let score : Int := if h2_count = 0 then score - 5 else score
  -- Image alt tags (15 points)
  let score : Int :=
    if image_count > 0 then
      let alt_percentage : ℚ := ((missing_alt_count : ℚ) / (image_count : ℚ)) * 100
      if alt_percentage > 50 then score - 15
      else if alt_percentage > 20 then score - 10
      else if alt_percentage > 0 then score - 5
      else score
    else score
  -- Mobile optimization (10 points)
  let score : Int := if has_meta_viewport then score else score - 10
  -- Canonical URL (5 points)
  let score : Int := if has_canonical then score else score - 5
  -- Ensure score is within 0-100
  max 0 (min 100 score)

/-- The deduction contributed by the title signal (0, 5 or 15 points). -/
def titleDeduction : Option String → Int
  | none => 15
  | some t =>
    if t = "" then 15
    else if t.length < 30 then 5
    else if t.length > 60 then 5
    else 0

/-- The deduction contributed by the meta-description signal. -/
def metaDescriptionDeduction : Option String → Int
  | none => 20
  | some d =>
    if d = "" then 20
    else if d.length < 120 then 5
    else if d.length > 160 then 5
    else 0

/-- The deduction contributed by the H1-count signal. -/
def h1Deduction (h1_count : Nat) : Int :=
  if h1_count = 0 then 15 else if h1_count > 1 then 10 else 0

/-- The deduction contributed by the H2-count signal. -/
def h2Deduction (h2_count : Nat) : Int :=
  if h2_count = 0 then 5 else 0

/-- The deduction contributed by the missing-alt-image signal, a step
function of the rational ratio `missing_alt_count / image_count`. -/
def altDeduction (missing_alt_count image_count : Nat) : Int :=
  if image_count > 0 then
    let alt_percentage : ℚ := ((missing_alt_count : ℚ) / (image_count : ℚ)) * 100
    if alt_percentage > 50 then 15
    else if alt_percentage > 20 then 10
    else if alt_percentage > 0 then 5
    else 0
  else 0

/-- The deduction contributed by the meta-viewport signal. -/
def viewportDeduction (has_meta_viewport : Bool) : Int :=
  if has_meta_viewport then 0 else 10

/-- The deduction contributed by the canonical-tag signal. -/
def canonicalDeduction (has_canonical : Bool) : Int :=
  if has_canonical then 0 else 5

/-- The list of the seven independent per-signal deductions. -/
def deductions (title meta_description : Option String)
    (h1_count h2_count missing_alt_count image_count : Nat)
    (has_meta_viewport has_canonical : Bool) : List Int :=
  [titleDeduction title,
   metaDescriptionDeduction meta_description,
   h1Deduction h1_count,
   h2Deduction h2_count,
   altDeduction missing_alt_count image_count,
   viewportDeduction has_meta_viewport,
   canonicalDeduction has_canonical]

/-- The sequential subtractions in `_calculate_seo_score` amount to
subtracting the sum of the independent per-signal deductions from 100 and
clamping. -/
theorem calc_score_eq_clamp (title meta_description : Option String)
    (h1_count h2_count missing_alt_count image_count : Nat)
    (has_meta_viewport has_canonical : Bool) :
    _calculate_seo_score title meta_description h1_count h2_count
        missing_alt_count image_count has_meta_viewport has_canonical =
      max 0 (min 100 (100 - (deductions title meta_description h1_count
        h2_count missing_alt_count image_count has_meta_viewport
        has_canonical).sum)) := by
  have ht : ∀ s : Int, (match title with
      | none => s - 15
      | some t =>
        if t = "" then s - 15
        else if t.length < 30 then s - 5
        else if t.length > 60 then s - 5
        else s) = s - titleDeduction title := by
    intro s
    cases title <;> simp only [titleDeduction] <;> split_ifs <;> ring
  have hm : ∀ s : Int, (match meta_description with
      | none => s - 20
      | some d =>
        if d = "" then s - 20
        else if d.length < 120 then s - 5
        else if d.length > 160 then s - 5
        else s) = s - metaDescriptionDeduction meta_description := by
    intro s
    cases meta_description <;> simp only [metaDescriptionDeduction] <;>
      split_ifs <;> ring
  have hh1 : ∀ s : Int,
      (if h1_count = 0 then s - 15 else if h1_count > 1 then s - 10 else s) =
        s - h1Deduction h1_count := by
    intro s
    simp only [h1Deduction]
    split_ifs <;> ring
  have hh2 : ∀ s : Int, (if h2_count = 0 then s - 5 else s) =
      s - h2Deduction h2_count := by
    intro s
    simp only [h2Deduction]
    split_ifs <;> ring
  have halt : ∀ s : Int, (if image_count > 0 then
        (if ((missing_alt_count : ℚ) / (image_count : ℚ)) * 100 > 50 then s - 15
         else if ((missing_alt_count : ℚ) / (image_count : ℚ)) * 100 > 20 then s - 10
         else if ((missing_alt_count : ℚ) / (image_count : ℚ)) * 100 > 0 then s - 5
         else s)
      else s) = s - altDeduction missing_alt_count image_count := by
    intro s
    simp only [altDeduction]
    split_ifs <;> ring
  have hv : ∀ s : Int, (if has_meta_viewport then s else s - 10) =
      s - viewportDeduction has_meta_viewport := by
    intro s
    simp only [viewportDeduction]
    split_ifs <;> ring
  have hc : ∀ s : Int, (if has_canonical then s else s - 5) =
      s - canonicalDeduction has_canonical := by
    intro s
    simp only [canonicalDeduction]
    split_ifs <;> ring
  simp only [_calculate_seo_score, deductions, List.sum_cons, List.sum_nil,
    ht, hm, hh1, hh2, halt, hv, hc]
  congr 1
  congr 1
  ring

/-- The title deduction is between 0 and its table maximum of 15. -/
theorem titleDeduction_bounds (t : Option String) :
    0 ≤ titleDeduction t ∧ titleDeduction t ≤ 15 := by
  cases t
  · decide
  · simp only [titleDeduction]
    split_ifs <;> decide

/-- The meta-description deduction is between 0 and its table maximum of 20. -/
theorem metaDescriptionDeduction_bounds (d : Option String) :
    0 ≤ metaDescriptionDeduction d ∧ metaDescriptionDeduction d ≤ 20 := by
  cases d
  · decide
  · simp only [metaDescriptionDeduction]
    split_ifs <;> decide

/-- The H1 deduction is between 0 and its table maximum of 15. -/
theorem h1Deduction_bounds (n : Nat) :
    0 ≤ h1Deduction n ∧ h1Deduction n ≤ 15 := by
  simp only [h1Deduction]
  split_ifs <;> decide

/-- The H2 deduction is between 0 and its table maximum of 5. -/
theorem h2Deduction_bounds (n : Nat) :
    0 ≤ h2Deduction n ∧ h2Deduction n ≤ 5 := by
  simp only [h2Deduction]
  split_ifs <;> decide

/-- The missing-alt deduction is between 0 and its table maximum of 15. -/
theorem altDeduction_bounds (m i : Nat) :
    0 ≤ altDeduction m i ∧ altDeduction m i ≤ 15 := by
  simp only [altDeduction]
  split_ifs <;> decide

/-- The viewport deduction is between 0 and its table maximum of 10. -/
theorem viewportDeduction_bounds (b : Bool) :
    0 ≤ viewportDeduction b ∧ viewportDeduction b ≤ 10 := by
  cases b <;> decide

/-- The canonical-tag deduction is between 0 and its table maximum of 5. -/
theorem canonicalDeduction_bounds (b : Bool) :
    0 ≤ canonicalDeduction b ∧ canonicalDeduction b ≤ 5 := by
  cases b <;> decide

/-- **C1.** For every input signal set, the Score Calculator starts at 100,
applies the independent additive deductions of the spec's table (its result
is the clamp to `[0,100]` of `100` minus the sum of the seven per-signal
deductions), and its result is an integer in `[0,100]`.  The sum may be
taken over the deductions in any order (any permutation of the deduction
list), so the score does not depend on the order in which the signals are
evaluated. -/
theorem seo_score_additive_clamped_in_range
    (title meta_description : Option String)
    (h1_count h2_count missing_alt_count image_count : Nat)
    (has_meta_viewport has_canonical : Bool)
    (l : List Int)
    (hl : l.Perm (deductions title meta_description h1_count h2_count
      missing_alt_count image_count has_meta_viewport has_canonical)) :
    _calculate_seo_score title meta_description h1_count h2_count
        missing_alt_count image_count has_meta_viewport has_canonical =
      max 0 (min 100 (100 - l.sum)) ∧
    0 ≤ _calculate_seo_score title meta_description h1_count h2_count
        missing_alt_count image_count has_meta_viewport has_canonical ∧
    _calculate_seo_score title meta_description h1_count h2_count
        missing_alt_count image_count has_meta_viewport has_canonical ≤ 100 := by
  rw [hl.sum_eq, calc_score_eq_clamp]
  refine ⟨rfl, le_max_left _ _, ?_⟩
  exact max_le (by norm_num) (min_le_left _ _)

/-- Witness for C1 at a concrete input: the degenerate signal set, with the
deduction list permuted, still yields the clamped sum (which is 30). -/
theorem seo_score_additive_clamped_in_range_witness :
    _calculate_seo_score none none 0 0 0 0 false false =
      max 0 (min 100 (100 - ([5, 10, 0, 5, 15, 20, 15] : List Int).sum)) ∧
    0 ≤ _calculate_seo_score none none 0 0 0 0 false false ∧
    _calculate_seo_score none none 0 0 0 0 false false ≤ 100 :=
  seo_score_additive_clamped_in_range none none 0 0 0 0 false false
    [5, 10, 0, 5, 15, 20, 15] (by decide)

/-- **C9.** For every input signal set the Score Calculator returns at least
15: the per-signal deductions sum to at most 85, so the clamp's lower bound
of 0 is never reached and a score of 0 is unattainable. -/
theorem seo_score_at_least_15 (title meta_description : Option String)
    (h1_count h2_count missing_alt_count image_count : Nat)
    (has_meta_viewport has_canonical : Bool) :
    15 ≤ _calculate_seo_score title meta_description h1_count h2_count
        missing_alt_count image_count has_meta_viewport has_canonical ∧
    _calculate_seo_score title meta_description h1_count h2_count
        missing_alt_count image_count has_meta_viewport has_canonical ≠ 0 := by
  obtain ⟨b1, b2⟩ := titleDeduction_bounds title
  obtain ⟨b3, b4⟩ := metaDescriptionDeduction_bounds meta_description
  obtain ⟨b5, b6⟩ := h1Deduction_bounds h1_count
  obtain ⟨b7, b8⟩ := h2Deduction_bounds h2_count
  obtain ⟨b9, b10⟩ := altDeduction_bounds missing_alt_count image_count
  obtain ⟨b11, b12⟩ := viewportDeduction_bounds has_meta_viewport
  obtain ⟨b13, b14⟩ := canonicalDeduction_bounds has_canonical
  rw [calc_score_eq_clamp]
  simp only [deductions, List.sum_cons, List.sum_nil]
  have h15 : (15 : Int) ≤ min 100 (100 - (titleDeduction title +
      (metaDescriptionDeduction meta_description + (h1Deduction h1_count +
      (h2Deduction h2_count + (altDeduction missing_alt_count image_count +
      (viewportDeduction has_meta_viewport +
      (canonicalDeduction has_canonical + 0)))))))) :=
    le_min (by norm_num) (by linarith)
  have hge := le_trans h15 (le_max_right (0 : Int) _)
  exact ⟨hge, by omega⟩

set_option maxRecDepth 8192 in
/-- **C4.** The Score Calculator returns exactly 100 on the all-ideal input
(title length in 30-60, meta description length in 120-160, exactly one H1,
at least one H2, zero missing-alt images, viewport present, canonical
present), and exactly 30 on the fully-degenerate input (no title, no meta
description, zero H1, zero H2, no viewport, no canonical, zero images). -/
theorem seo_score_ideal_and_degenerate :
    _calculate_seo_score
      (some "An Ideal Page Title Of Forty Chars Here")
      (some "This meta description is carefully written so that its total character count lands inside the ideal window of one hundred and forty.")
      1 2 0 5 true true = 100 ∧
    _calculate_seo_score none none 0 0 0 0 false false = 30 := by
  constructor
  · rw [calc_score_eq_clamp]
    have halt : altDeduction 0 5 = 0 := by
      simp only [altDeduction]
      norm_num
    simp only [deductions, halt, titleDeduction, metaDescriptionDeduction,
      h1Deduction, h2Deduction, viewportDeduction, canonicalDeduction,
      List.sum_cons, List.sum_nil]
    decide
  · decide

/-- **C5.** When `image_count > 0`, the missing-alt deduction is a step
function of the percentage `missing_alt_count / image_count * 100` with
exactly three bands: strictly above 50 deducts 15, in `(20, 50]` deducts
10, in `(0, 20]` deducts 5; exactly 0 deducts nothing; and no deduction
applies when `image_count = 0`. -/
theorem missing_alt_deduction_bands (m i : Nat) :
    (i = 0 → altDeduction m i = 0) ∧
    (0 < i →
      (((m : ℚ) / (i : ℚ)) * 100 > 50 → altDeduction m i = 15) ∧
      (20 < ((m : ℚ) / (i : ℚ)) * 100 ∧ ((m : ℚ) / (i : ℚ)) * 100 ≤ 50 →
        altDeduction m i = 10) ∧
      (0 < ((m : ℚ) / (i : ℚ)) * 100 ∧ ((m : ℚ) / (i : ℚ)) * 100 ≤ 20 →
        altDeduction m i = 5) ∧
      (((m : ℚ) / (i : ℚ)) * 100 = 0 → altDeduction m i = 0)) := by
  constructor
  · intro h
    subst h
    simp [altDeduction]
  · intro hi
    simp only [altDeduction, if_pos hi]
    split_ifs with h1 h2 h3
    · exact ⟨fun _ => rfl, fun hc => by linarith [hc.2], fun hc => by linarith [hc.2],
        fun h0 => by linarith⟩
    · exact ⟨fun hg => by linarith, fun _ => rfl, fun hc => by linarith [hc.2],
        fun h0 => by linarith⟩
    · exact ⟨fun hg => by linarith, fun hc => by linarith [hc.1], fun _ => rfl,
        fun h0 => by linarith⟩
    · exact ⟨fun hg => by linarith, fun hc => by linarith [hc.1], fun hc => by linarith [hc.1],
        fun _ => rfl⟩

/-- Witness for C5: 80% and 60% missing both deduct 15, 10% deducts 5,
0% deducts nothing, and no images deducts nothing. -/
theorem missing_alt_deduction_bands_witness :
    altDeduction 8 10 = 15 ∧ altDeduction 6 10 = 15 ∧ altDeduction 1 10 = 5 ∧
    altDeduction 0 10 = 0 ∧ altDeduction 3 0 = 0 :=
  ⟨((missing_alt_deduction_bands 8 10).2 (by norm_num)).1 (by norm_num),
   ((missing_alt_deduction_bands 6 10).2 (by norm_num)).1 (by norm_num),
   ((missing_alt_deduction_bands 1 10).2 (by norm_num)).2.2.1 (by norm_num),
   ((missing_alt_deduction_bands 0 10).2 (by norm_num)).2.2.2 (by norm_num),
   (missing_alt_deduction_bands 3 0).1 rfl⟩

/- ===================================================================
   Site Prober — services/crawler.py `crawl_website` (error handling)
   =================================================================== -/

/-- Default crawl timeout in seconds (`config.py`, `CRAWLER_TIMEOUT`). -/
def CRAWLER_TIMEOUT : Nat := 10

/-- The `scheme` and `netloc` components of `urllib.parse.urlparse(url)`;
a component that is missing from the URL string is the empty string. -/
structure UrlParts where
  scheme : String
  netloc : String

/-- Outcome of the network GET in `crawl_website`: an HTTP response with a
status and a body, an `aiohttp.ClientError`, or an `asyncio.TimeoutError`. -/
inductive FetchResult where
  | response (status : Nat) (body : String)
  | clientError (msg : String)
  | timeout

/-- From `exceptions.py`: `CrawlerException` carries a message and is always
constructed with HTTP status code 400. -/
structure CrawlerException where
  message : String
  status_code : Nat
deriving DecidableEq

/-- From `services/crawler.py`, lines 41-93: URL validation, then the GET,
mapping a non-200 status, a client error or a timeout each to a raised
`CrawlerException`.  The success value is the fetched body, standing for the
extracted metrics computed from it; the exception-based control flow is
embedded as `Except`, so a failure carries no content. -/
def crawl_website (url : String) (parsed : UrlParts) (fetch : FetchResult) :
    Except CrawlerException String :=
  if parsed.scheme = "" ∨ parsed.netloc = "" then
    .error ⟨"Invalid URL format: " ++ url, 400⟩
  else
    match fetch with
    | .response status body =>
      if status ≠ 200 then
        .error ⟨"Website returned status code " ++ toString status, 400⟩
      else
        .ok body
    | .clientError msg => .error ⟨"Failed to fetch website: " ++ msg, 400⟩
    | .timeout =>
      .error ⟨"Request timeout after " ++ toString CRAWLER_TIMEOUT ++ "s", 400⟩

/-- The invalid-target failure class is recoverable from the error value:
exactly the errors whose message carries the `Invalid URL format: ` cause. -/
def isInvalidTargetError (e : CrawlerException) : Bool :=
  "Invalid URL format: ".data.isPrefixOf e.message.data

/-- Lists whose heads differ are not prefixes of one another. -/
theorem not_prefix_of_head_ne {l₁ l₂ : List Char} {c₁ c₂ : Char}
    (h₁ : l₁.head? = some c₁) (h₂ : l₂.head? = some c₂) (hne : c₁ ≠ c₂) :
    ¬ (l₁ <+: l₂) := by
  rintro ⟨t, rfl⟩
  cases l₁ with
  | nil => simp at h₁
  | cons a l =>
    have e₁ : a = c₁ := by simpa using h₁
    have e₂ : a = c₂ := by simpa using h₂
    exact hne (e₁ ▸ e₂ ▸ rfl)

/-- The invalid-target classifier accepts every invalid-URL error. -/
theorem isInvalidTargetError_invalid (url : String) :
    isInvalidTargetError ⟨"Invalid URL format: " ++ url, 400⟩ = true := by
  simp only [isInvalidTargetError]
  rw [ List.isPrefixOf_iff_prefix]
  exact ⟨url.data, (String.data_append _ _).symm⟩

/-- The invalid-target classifier rejects every non-200-status error. -/
theorem isInvalidTargetError_non200 (status : Nat) :
    isInvalidTargetError
      ⟨"Website returned status code " ++ toString status, 400⟩ = false := by
  simp only [isInvalidTargetError]
  rw [Bool.eq_false_iff]
  intro hp
  rw [ List.isPrefixOf_iff_prefix] at hp
  have hW : ("Website returned status code " ++ toString status).data.head? =
      some 'W' := by
    rw [String.data_append]
    rw [show "Website returned status code ".data =
      'W' :: "ebsite returned status code ".data from by decide]
    rfl
  have hI : "Invalid URL format: ".data.head? = some 'I' := by decide
  have hne : ('I' : Char) ≠ 'W' := by decide
  exact not_prefix_of_head_ne hI hW hne hp

/-- The invalid-target classifier rejects every client-error error. -/
theorem isInvalidTargetError_clientError (msg : String) :
    isInvalidTargetError ⟨"Failed to fetch website: " ++ msg, 400⟩ = false := by
  simp only [isInvalidTargetError]
  rw [Bool.eq_false_iff]
  intro hp
  rw [ List.isPrefixOf_iff_prefix] at hp
  have hF : ("Failed to fetch website: " ++ msg).data.head? = some 'F' := by
    rw [String.data_append]
    rw [show "Failed to fetch website: ".data =
      'F' :: "ailed to fetch website: ".data from by decide]
    rfl
  have hI : "Invalid URL format: ".data.head? = some 'I' := by decide
  have hne : ('I' : Char) ≠ 'F' := by decide
  exact not_prefix_of_head_ne hI hF hne hp

/-- The invalid-target classifier rejects the timeout error. -/
theorem isInvalidTargetError_timeout :
    isInvalidTargetError
      ⟨"Request timeout after " ++ toString CRAWLER_TIMEOUT ++ "s", 400⟩ =
      false := by
  decide

/-- **C2.** A URL lacking a scheme or a host fails with the invalid-target
error before any network access (the result is the same fixed error value
whatever the fetch outcome is); on a valid URL a non-200 response, a client
error and a timeout each fail with an error carrying the human-readable
cause, and every such fetch failure lies outside the invalid-target failure
class; a success is only ever the complete body of a 200 response, so the
caller never receives partial content on failure. -/
theorem crawl_website_error_contract (url : String) (parsed : UrlParts)
    (fetch : FetchResult) :
    (parsed.scheme = "" ∨ parsed.netloc = "" →
      crawl_website url parsed fetch =
        .error ⟨"Invalid URL format: " ++ url, 400⟩ ∧
      ∀ e, crawl_website url parsed fetch = .error e →
        isInvalidTargetError e = true) ∧
    (¬(parsed.scheme = "" ∨ parsed.netloc = "") →
      (∀ status body, fetch = .response status body → status ≠ 200 →
        crawl_website url parsed fetch =
          .error ⟨"Website returned status code " ++ toString status, 400⟩) ∧
      (∀ msg, fetch = .clientError msg →
        crawl_website url parsed fetch =
          .error ⟨"Failed to fetch website: " ++ msg, 400⟩) ∧
      (fetch = .timeout →
        crawl_website url parsed fetch =
          .error ⟨"Request timeout after " ++ toString CRAWLER_TIMEOUT ++ "s",
            400⟩) ∧
      (∀ e, crawl_website url parsed fetch = .error e →
        isInvalidTargetError e = false)) ∧
    (∀ body, crawl_website url parsed fetch = .ok body →
      ¬(parsed.scheme = "" ∨ parsed.netloc = "") ∧
        fetch = .response 200 body) := by
  by_cases hv : parsed.scheme = "" ∨ parsed.netloc = ""
  · refine ⟨fun _ => ?_, fun hcon => absurd hv hcon, fun body hok => ?_⟩
    · constructor
      · simp [crawl_website, if_pos hv]
      · intro e he
        simp only [crawl_website, if_pos hv] at he
        injection he with h
        exact h ▸ isInvalidTargetError_invalid url
    · simp only [crawl_website, if_pos hv] at hok
      exact absurd hok (by simp)
  · refine ⟨fun hcon => absurd hcon hv, fun _ => ?_, fun body hok => ?_⟩
    · simp only [crawl_website, if_neg hv]
      refine ⟨?_, ?_, ?_, ?_⟩
      · rintro status body rfl hs
        simp [hs]
      · rintro msg rfl
        rfl
      · rintro rfl
        rfl
      · intro e he
        cases fetch with
        | response status body =>
          by_cases hs : status = 200
          · subst hs
            simp at he
          · simp only [if_neg, hs, if_pos, ne_eq, not_false_iff, if_true] at he
            have he2 : (⟨"Website returned status code " ++ toString status,
                400⟩ : CrawlerException) = e := by
              simpa [hs] using he
            exact he2 ▸ isInvalidTargetError_non200 status
        | clientError msg =>
          have he2 : (⟨"Failed to fetch website: " ++ msg, 400⟩ :
              CrawlerException) = e := by simpa using he
          exact he2 ▸ isInvalidTargetError_clientError msg
        | timeout =>
          have he2 : (⟨"Request timeout after " ++ toString CRAWLER_TIMEOUT ++
              "s", 400⟩ : CrawlerException) = e := by simpa using he
          exact he2 ▸ isInvalidTargetError_timeout
    · simp only [crawl_website, if_neg hv] at hok
      cases fetch with
      | response status body2 =>
        by_cases hs : status = 200
        · subst hs
          simp at hok
          exact ⟨hv, by rw [hok]⟩
        · simp [hs] at hok
      | clientError msg => simp at hok
      | timeout => simp at hok

/-- Witness for C2: a URL with no scheme and no host yields the invalid-URL
error even though the fetch would have failed differently, and a valid URL
with a 404 response yields the status-code error. -/
theorem crawl_website_error_contract_witness :
    crawl_website "nourl" ⟨"", ""⟩ (.clientError "refused") =
      .error ⟨"Invalid URL format: nourl", 400⟩ ∧
    crawl_website "http://x" ⟨"http", "x"⟩ (.response 404 "") =
      .error ⟨"Website returned status code 404", 400⟩ :=
  ⟨((crawl_website_error_contract "nourl" ⟨"", ""⟩
      (.clientError "refused")).1 (Or.inl rfl)).1,
   ((crawl_website_error_contract "http://x" ⟨"http", "x"⟩
      (.response 404 "")).2.1 (by decide)).1 404 "" rfl (by decide)⟩

/- ===================================================================
   External Performance Fetcher — services/pagespeed.py and the detached
   background task services/analyzer.py `fetch_and_update_lighthouse`
   =================================================================== -/

/-- The four Lighthouse category scores extracted from the PageSpeed
response; each is `none` when the category carried no score. -/
structure LighthouseMetrics where
  performance : Option ℚ
  accessibility : Option ℚ
  seo : Option ℚ
  best_practices : Option ℚ
deriving DecidableEq

/-- From `services/pagespeed.py`: `PageSpeedException` carries a message. -/
structure PageSpeedException where
  message : String
deriving DecidableEq

/-- Outcome of the PageSpeed API call inside `fetch_lighthouse_metrics`:
either the call returned and the four scores were extracted (each possibly
`none`), or some exception was raised (non-200 status, HTTP client error,
timeout, malformed response). -/
inductive PagespeedOutcome where
  | ok (metrics : LighthouseMetrics)
  | apiError (msg : String)

/-- From `services/pagespeed.py`, lines 18-83: returns the extracted metrics
or raises `PageSpeedException`; the raise is embedded as `Except.error`. -/
def fetch_lighthouse_metrics (outcome : PagespeedOutcome) :
    Except PageSpeedException LighthouseMetrics :=
  match outcome with
  | .ok metrics => .ok metrics
  | .apiError msg => .error ⟨msg⟩

/-- From `services/pagespeed.py`, lines 100-114: the safe mode catches every
exception of `fetch_lighthouse_metrics` and falls back to all-`none`. -/
def fetch_lighthouse_metrics_safe (outcome : PagespeedOutcome) :
    LighthouseMetrics :=
  match fetch_lighthouse_metrics outcome with
  | .ok metrics => metrics
  | .error _ => ⟨none, none, none, none⟩

/-- The mutable part of a persisted report row touched by the background
task (`models.py` Lighthouse columns plus the migrated `lighthouse_status`,
which defaults to `pending` at creation). -/
structure LighthouseRow where
  lighthouse_performance : Option ℚ := none
  lighthouse_accessibility : Option ℚ := none
  lighthouse_seo : Option ℚ := none
  lighthouse_best_practices : Option ℚ := none
  lighthouse_status : String := "pending"
deriving DecidableEq

/-- Result of one run of the background task over a single report row:
the row's state after the task, and the number of committed updates. -/
structure TaskRun where
  row : Option LighthouseRow
  commits : Nat
deriving DecidableEq

/-- From `services/analyzer.py`, lines 191-237.  The task opens its own
session, calls the safe fetch (which never raises), queries the row by ID
(`row` is `none` when no such report exists, e.g. already deleted), and if
the row exists writes the four performance fields plus status `completed`
in one commit.  The `try`/`except` is embedded by two flags:
`update_raises` — the query-update-commit step raised; `recovery_raises` —
the `except` branch's own query/commit raised too (then it rolls back and
the row keeps its original state). -/
def fetch_and_update_lighthouse (outcome : PagespeedOutcome)
    (row : Option LighthouseRow) (update_raises recovery_raises : Bool) :
    TaskRun :=
  let metrics := fetch_lighthouse_metrics_safe outcome
  match row with
  | none => ⟨none, 0⟩
  | some report =>
    if update_raises then
      if recovery_raises then ⟨some report, 0⟩
      else ⟨some { report with lighthouse_status := "failed" }, 1⟩
    else
      ⟨some { report with
          lighthouse_performance := metrics.performance,
          lighthouse_accessibility := metrics.accessibility,
          lighthouse_seo := metrics.seo,
          lighthouse_best_practices := metrics.best_practices,
          lighthouse_status := "completed" }, 1⟩

/-- **C3.** For every report row that exists when the background task runs:
when the update step does not raise, the task performs exactly one commit,
writing the four fetched performance fields and status `completed` — for
every fetch outcome, including an API error, whose safe fetch yields four
`none` scores rather than raising; and the row ends with status `failed`
only when the update step itself raised after the fetch. -/
theorem fetch_and_update_lighthouse_one_update (outcome : PagespeedOutcome)
    (report : LighthouseRow) (update_raises recovery_raises : Bool) :
    (update_raises = false →
      fetch_and_update_lighthouse outcome (some report) update_raises
          recovery_raises =
        ⟨some { report with
            lighthouse_performance :=
              (fetch_lighthouse_metrics_safe outcome).performance,
            lighthouse_accessibility :=
              (fetch_lighthouse_metrics_safe outcome).accessibility,
            lighthouse_seo := (fetch_lighthouse_metrics_safe outcome).seo,
            lighthouse_best_practices :=
              (fetch_lighthouse_metrics_safe outcome).best_practices,
            lighthouse_status := "completed" }, 1⟩) ∧
    (∀ msg, fetch_lighthouse_metrics_safe (.apiError msg) =
      ⟨none, none, none, none⟩) ∧
    (∀ r, (fetch_and_update_lighthouse outcome (some report) update_raises
        recovery_raises).row = some r →
      r.lighthouse_status = "failed" →
      report.lighthouse_status = "failed" ∨ update_raises = true) := by
  refine ⟨fun hu => ?_, fun msg => rfl, fun r hr hf => ?_⟩
  · subst hu
    rfl
  · cases update_raises with
    | true => exact Or.inr rfl
    | false =>
      simp only [fetch_and_update_lighthouse, Bool.false_eq_true, if_false,
        Option.some.injEq] at hr
      rw [← hr] at hf
      simp at hf

/-- Witness for C3: on an API error the safe fetch yields four `none`
scores, and a run over a fresh pending row with a non-raising update step
commits exactly once, writing the four fields and status `completed`. -/
theorem fetch_and_update_lighthouse_one_update_witness :
    fetch_and_update_lighthouse (.apiError "socket timeout")
        (some ({} : LighthouseRow)) false false =
      ⟨some { lighthouse_performance := none, lighthouse_accessibility := none,
              lighthouse_seo := none, lighthouse_best_practices := none,
              lighthouse_status := "completed" }, 1⟩ := by
  have h := (fetch_and_update_lighthouse_one_update (.apiError "socket timeout")
    ({} : LighthouseRow) false false).1 rfl
  simpa [fetch_lighthouse_metrics_safe, fetch_lighthouse_metrics] using h

/-- **C10.** If no report row with the given ID exists when the detached
background task runs (for example because the retention sweep already
deleted it), the task commits nothing and performs no status transition:
there is no row afterwards, so the enrichment status is set to neither
`completed` nor `failed`. -/
theorem fetch_and_update_lighthouse_missing_row (outcome : PagespeedOutcome)
    (update_raises recovery_raises : Bool) :
    fetch_and_update_lighthouse outcome none update_raises recovery_raises =
      ⟨none, 0⟩ ∧
    (fetch_and_update_lighthouse outcome none update_raises
      recovery_raises).commits = 0 ∧
    ∀ r, (fetch_and_update_lighthouse outcome none update_raises
      recovery_raises).row ≠ some r := by
  refine ⟨rfl, rfl, fun r h => ?_⟩
  simp only [fetch_and_update_lighthouse] at h
  exact Option.noConfusion h

/-- Witness for C10 at a concrete input: a missing row is left missing with
zero commits. -/
theorem fetch_and_update_lighthouse_missing_row_witness :
    fetch_and_update_lighthouse (.apiError "quota exceeded") none true false =
      ⟨none, 0⟩ :=
  (fetch_and_update_lighthouse_missing_row (.apiError "quota exceeded")
    true false).1

/- ===================================================================
   Insight Generator — services/ai_agent.py `analyze_with_ai`, and the
   orchestrator services/analyzer.py `analyze_url_service`
   =================================================================== -/

/-- A suggestion as decoded from the model's JSON: either a plain string or
a `\x7btitle, description\x7d` object (a missing key decodes to `""`). -/
inductive Suggestion where
  | plain (text : String)
  | structured (title description : String)
deriving DecidableEq

/-- The `\x7bsummary, suggestions\x7d` value `analyze_with_ai` returns. -/
structure AIResult where
  summary : String
  suggestions : List Suggestion
deriving DecidableEq

/-- Outcome of the model call inside `analyze_with_ai`'s `try` block:
the API key may be missing; the call may raise or the response may fail to
parse as JSON (both land in the `except` handler); or the response parses
into a summary and a suggestion list. -/
inductive AIOutcome where
  | missingApiKey
  | failure (msg : String)
  | ok (summary : String) (suggestions : List Suggestion)

/-- From `services/ai_agent.py`, lines 30-59.  Every failure path returns a
placeholder result instead of raising, so the function is total. -/
def analyze_with_ai (outcome : AIOutcome) : AIResult :=
  match outcome with
  | .missingApiKey =>
    ⟨"AI Analysis Unavailable (Missing Google API Key)",
     [.plain "Add GOOGLE_API_KEY to .env file"]⟩
  | .failure msg =>
    ⟨"Error generating AI insights.", [.plain ("AI Error: " ++ msg)]⟩
  | .ok summary suggestions => ⟨summary, suggestions⟩

/-- From `services/analyzer.py`, lines 106-126: flatten each suggestion to
one display string; an object becomes `title: description`, or just
`description` when the title is empty. -/
def _process_ai_suggestions (suggestions : List Suggestion) : List String :=
  suggestions.map fun s =>
    match s with
    | .structured title description =>
      if title = "" then description else title ++ ": " ++ description
    | .plain text => text

/-- The two error classes `analyze_url_service` can raise
(`exceptions.py`): the crawler failure from step 1 and the database failure
from step 4. -/
inductive ServiceError where
  | crawler (e : CrawlerException)
  | database (msg : String)

/-- The report entity persisted by `_create_report`, restricted to the
fields the orchestrator computes at persist time; `crawl` stands for the
crawl-derived columns. -/
structure SavedReport where
  crawl : String
  ai_summary : String
  ai_suggestions : List String
  lighthouse_status : String
deriving DecidableEq

/-- From `services/analyzer.py`, lines 23-103.  Step 1 re-raises a crawl
failure; step 2 calls `analyze_with_ai`, whose own `try`/`except` makes it
total, so the orchestrator's surrounding `except` is never entered; step 3
flattens the suggestions; step 4 persists (a storage failure raises
`DatabaseException`); the persisted report starts with status `pending`.
The crawl result and the persist failure are explicit inputs. -/
def analyze_url_service (crawl_result : Except CrawlerException String)
    (ai : AIOutcome) (persist_fails : Bool) :
    Except ServiceError SavedReport :=
  match crawl_result with
  | .error e => .error (.crawler e)
  | .ok crawl_data =>
    let ai_result := analyze_with_ai ai
    let processed_suggestions := _process_ai_suggestions ai_result.suggestions
    if persist_fails then .error (.database "Failed to save analysis report")
    else .ok ⟨crawl_data, ai_result.summary, processed_suggestions, "pending"⟩

/-- **C6.** For every crawl result and Insight Generator outcome, a failure
of the Insight Generator (missing credentials, or any raised error —
network, non-2xx, malformed JSON) is caught locally and replaced by a
placeholder with a summary string and a non-empty suggestion list;
the orchestrator always proceeds to the persist step (when persistence
succeeds the result is the saved report, carrying the AI stage's summary
and flattened suggestions), and no AI outcome ever aborts the request:
an error can only be a database error, never caused by the AI stage. -/
theorem ai_failure_never_aborts (crawl_data : String) (ai : AIOutcome)
    (persist_fails : Bool) :
    (∀ msg, analyze_with_ai (.failure msg) =
      ⟨"Error generating AI insights.", [.plain ("AI Error: " ++ msg)]⟩) ∧
    (analyze_with_ai .missingApiKey =
      ⟨"AI Analysis Unavailable (Missing Google API Key)",
       [.plain "Add GOOGLE_API_KEY to .env file"]⟩) ∧
    (persist_fails = false →
      analyze_url_service (.ok crawl_data) ai persist_fails =
        .ok ⟨crawl_data, (analyze_with_ai ai).summary,
          _process_ai_suggestions (analyze_with_ai ai).suggestions,
          "pending"⟩) ∧
    (∀ e, analyze_url_service (.ok crawl_data) ai persist_fails =
      .error e → e = .database "Failed to save analysis report") := by
  refine ⟨fun msg => rfl, rfl, fun hp => ?_, fun e he => ?_⟩
  · subst hp
    rfl
  · by_cases hp : persist_fails = true
  
    · subst hp
      simp only [analyze_url_service, if_pos] at he
      injection he with h
      exact h.symm
    · rw [Bool.not_eq_true] at hp
      subst hp
      simp only [analyze_url_service, Bool.false_eq_true, if_false] at he
      exact Except.noConfusion he

/-- Witness for C6: with a failing AI call and working persistence, the
request still produces a saved report carrying the placeholder summary. -/
theorem ai_failure_never_aborts_witness :
    analyze_url_service (.ok "crawl-metrics") (.failure "429 quota") false =
      .ok ⟨"crawl-metrics", "Error generating AI insights.",
        ["AI Error: 429 quota"], "pending"⟩ := by
  have h := (ai_failure_never_aborts "crawl-metrics" (.failure "429 quota")
    false).2.2.1 rfl
  simpa [analyze_with_ai, _process_ai_suggestions] using h

/- ===================================================================
   Retention sweep — services/cleanup.py `cleanup_guest_reports`
   =================================================================== -/

/-- The columns of a stored report row the sweep looks at: the optional
owner (`user_id`, `none` for guests) and the creation time, modelled as an
integer timestamp in seconds. -/
structure StoredReport where
  user_id : Option Nat
  created_at : Int
deriving DecidableEq

/-- A row is eligible for the sweep when it is a guest report strictly
older than the cutoff time (`Report.user_id.is_(None)` and
`Report.created_at < cutoff_time`). -/
def is_old_guest (cutoff_time : Int) (r : StoredReport) : Bool :=
  r.user_id = none ∧ r.created_at < cutoff_time

/-- From `services/cleanup.py`, lines 22-75.  `now` models
`datetime.utcnow()`; the cutoff is `now` minus `retention_hours` hours.
Returns the table state after the call together with the reported
`deleted_count`.  With `dry_run` (or when nothing matches) the table is
unchanged; otherwise exactly the matching rows are deleted and
`.delete()` returns how many. -/
def cleanup_guest_reports (db : List StoredReport) (now : Int)
    (retention_hours : Int) (dry_run : Bool) : List StoredReport × Nat :=
  let cutoff_time := now - retention_hours * 3600
  let count := (db.filter (is_old_guest cutoff_time)).length
  if count = 0 then (db, 0)
  else if dry_run then (db, count)
  else (db.filter (fun r => !(is_old_guest cutoff_time r)), count)

/-- **C8.** For every report table, clock and retention threshold: the
dry-run sweep returns the number of guest reports older than the threshold
and deletes nothing; the real sweep deletes exactly the guest reports older
than the threshold (the table keeps exactly the non-eligible rows) and
returns that same count; and a report with a non-null owner is never
deleted by either sweep. -/
theorem cleanup_guest_reports_spec (db : List StoredReport) (now : Int)
    (retention_hours : Int) :
    (cleanup_guest_reports db now retention_hours true).1 = db ∧
    (cleanup_guest_reports db now retention_hours true).2 =
      (db.filter (is_old_guest (now - retention_hours * 3600))).length ∧
    (cleanup_guest_reports db now retention_hours false).1 =
      db.filter (fun r => !(is_old_guest (now - retention_hours * 3600) r)) ∧
    (cleanup_guest_reports db now retention_hours false).2 =
      (db.filter (is_old_guest (now - retention_hours * 3600))).length ∧
    (∀ r, r ∈ db → r.user_id ≠ none →
      r ∈ (cleanup_guest_reports db now retention_hours false).1 ∧
      r ∈ (cleanup_guest_reports db now retention_hours true).1) := by
  by_cases h0 :
      (db.filter (is_old_guest (now - retention_hours * 3600))).length = 0
  · have hcl : ∀ dr : Bool,
        cleanup_guest_reports db now retention_hours dr = (db, 0) := by
      intro dr
      simp only [cleanup_guest_reports]
      rw [if_pos h0]
    have hempty :
        db.filter (is_old_guest (now - retention_hours * 3600)) = [] := by
      rwa [List.length_eq_zero] at h0
    have hfull : db.filter
        (fun r => !(is_old_guest (now - retention_hours * 3600) r)) = db := by
      apply List.filter_eq_self.mpr
      intro a ha
      have hna := List.filter_eq_nil_iff.mp hempty a ha
      simp only [Bool.not_eq_true] at hna ⊢
      simp [hna]
    rw [hcl true, hcl false]
    exact ⟨rfl, h0.symm, hfull.symm, h0.symm, fun r hr _ => ⟨hr, hr⟩⟩
  · have hcl_true : cleanup_guest_reports db now retention_hours true =
        (db, (db.filter (is_old_guest (now - retention_hours * 3600))).length) := by
      simp only [cleanup_guest_reports]
      rw [if_neg h0]
      simp only [if_true]
    have hcl_false : cleanup_guest_reports db now retention_hours false =
        (db.filter (fun r => !(is_old_guest (now - retention_hours * 3600) r)),
         (db.filter (is_old_guest (now - retention_hours * 3600))).length) := by
      simp only [cleanup_guest_reports]
      rw [if_neg h0]
      simp only [Bool.false_eq_true, if_false]
    rw [hcl_true, hcl_false]
    refine ⟨rfl, rfl, rfl, rfl, fun r hr hu => ?_⟩
    have hfalse : is_old_guest (now - retention_hours * 3600) r = false := by
      simp only [is_old_guest, decide_eq_false_iff_not]
      rintro ⟨h1, h2⟩
      exact hu h1
    exact ⟨List.mem_filter.mpr ⟨hr, by simp [hfalse]⟩, hr⟩

/-- Witness for C8: on a three-row table with one old guest report, one
fresh guest report and one old owned report, the dry run counts 1 and keeps
all rows, the real sweep deletes exactly the old guest row and also counts
1, and the owned row survives. -/
theorem cleanup_guest_reports_spec_witness :
    (cleanup_guest_reports
        [⟨none, 0⟩, ⟨none, 90000⟩, ⟨some 7, 0⟩] 100000 24 true).1 =
      [⟨none, 0⟩, ⟨none, 90000⟩, ⟨some 7, 0⟩] ∧
    (cleanup_guest_reports
        [⟨none, 0⟩, ⟨none, 90000⟩, ⟨some 7, 0⟩] 100000 24 true).2 =
      ([⟨none, 0⟩, ⟨none, 90000⟩, ⟨some 7, 0⟩].filter
        (is_old_guest (100000 - 24 * 3600))).length ∧
    (cleanup_guest_reports
        [⟨none, 0⟩, ⟨none, 90000⟩, ⟨some 7, 0⟩] 100000 24 false).1 =
      ([⟨none, 0⟩, ⟨none, 90000⟩, ⟨some 7, 0⟩].filter
        (fun r => !(is_old_guest (100000 - 24 * 3600) r))) ∧
    (⟨some 7, 0⟩ : StoredReport) ∈
      (cleanup_guest_reports
        [⟨none, 0⟩, ⟨none, 90000⟩, ⟨some 7, 0⟩] 100000 24 false).1 := by
  have h := cleanup_guest_reports_spec
    [⟨none, 0⟩, ⟨none, 90000⟩, ⟨some 7, 0⟩] 100000 24
  refine ⟨h.1, h.2.1, h.2.2.1, ?_⟩
  exact (h.2.2.2.2 ⟨some 7, 0⟩ (by decide) (by decide)).1

/- ===================================================================
   Top-keyword extraction — services/crawler.py `_extract_top_keywords`
   =================================================================== -/

/-- The fixed stop-word set (`services/crawler.py`, lines 16-26). -/
def STOP_WORDS : List String :=
  ["the", "a", "an", "and", "or", "but", "in", "on", "at", "to", "for",
   "of", "with", "by", "from", "up", "about", "into", "through", "during",
   "before", "after", "above", "below", "between", "under", "again",
   "further", "then", "once", "here", "there", "when", "where", "why",
   "how", "all", "both", "each", "few", "more", "most", "other", "some",
   "such", "no", "nor", "not", "only", "own", "same", "so", "than", "too",
   "very", "can", "will", "just", "should", "now", "is", "am", "are",
   "was", "were", "be", "been", "being", "have", "has", "had", "having",
   "do", "does", "did", "doing", "would", "could", "ought", "i", "you",
   "he", "she", "it", "we", "they", "them", "their", "what", "which",
   "who", "this", "that", "these", "those", "as", "if", "while",
   "because", "until", "since", "unless", "although", "though"]

/-- Python's `string.punctuation`. -/
def string_punctuation : String :=
  "!\"#$%&\x27()*+,-./:;<=>?@[\\]^_\x60\x7b|\x7d~"

/-- Python `text.lower()` (ASCII model, like `Char.toLower`). -/
def pyLower (s : String) : String :=
  String.mk (s.data.map Char.toLower)

/-- `text.translate(str.maketrans(string.punctuation,
' ' * len(string.punctuation)))`: map every punctuation character to a
space. -/
def stripPunctuation (s : String) : String :=
  String.mk (s.data.map (fun c => if c ∈ string_punctuation.data then ' ' else c))

/-- Helper for `pySplit`: walk the characters accumulating the current
word; whitespace ends a word, empty runs produce nothing. -/
def splitWsAux : List Char → List Char → List String
  | [], acc => if acc = [] then [] else [String.mk acc.reverse]
  | c :: cs, acc =>
    if c.isWhitespace then
      if acc = [] then splitWsAux cs []
      else String.mk acc.reverse :: splitWsAux cs []
    else splitWsAux cs (c :: acc)

/-- Python `str.split()` with no argument: split on whitespace runs and
return no empty words. -/
def pySplit (s : String) : List String :=
  splitWsAux s.data []

/-- Python `word.isalpha()` (ASCII model): non-empty and all alphabetic. -/
def isalpha (w : String) : Bool :=
  decide (w.data ≠ []) && w.data.all Char.isAlpha

/-- The token filter of `_extract_top_keywords`:
`word not in STOP_WORDS and len(word) > 2 and word.isalpha()`. -/
def keywordFilter (word : String) : Bool :=
  decide (word ∉ STOP_WORDS) && decide (word.length > 2) && isalpha word

/-- The cleaned, whitespace-split tokens of the text. -/
def keywordTokens (text : String) : List String :=
  pySplit (stripPunctuation (pyLower text))

/-- The tokens surviving the stop-word/length/alphabetic filter — the list
`Counter` counts over. -/
def filteredKeywordTokens (text : String) : List String :=
  (keywordTokens text).filter keywordFilter

/-- The distinct words in first-occurrence order: the key order of
`collections.Counter` built by repeated insertion. -/
def firstOccurrences : List String → List String
  | [] => []
  | w :: ws => w :: (firstOccurrences ws).filter (fun x => !(x == w))

/-- The descending-count preorder `Counter.most_common` sorts by:
`a` precedes `b` when `a`'s count in `l` is at least `b`'s. -/
def countOrder (l : List String) (a b : String) : Prop :=
  l.count b ≤ l.count a

instance countOrderDecidable (l : List String) : DecidableRel (countOrder l) :=
  fun a b => inferInstanceAs (Decidable (l.count b ≤ l.count a))

instance countOrderTotal (l : List String) : IsTotal String (countOrder l) :=
  ⟨fun a b => Nat.le_total (l.count b) (l.count a)⟩

instance countOrderTrans (l : List String) : IsTrans String (countOrder l) :=
  ⟨fun _ _ _ hab hbc => le_trans hbc hab⟩

/-- `Counter(l).most_common(n)`: CPython sorts the counter's items (keyed
in first-occurrence order) by count, descending, with a stable sort; a
stable sort under this total preorder is insertion sort. -/
def most_common (l : List String) (n : Nat) : List String :=
  ((firstOccurrences l).insertionSort (countOrder l)).take n

/-- From `services/crawler.py`, lines 298-330: lower-case, replace
punctuation by spaces, split on whitespace, filter, count, and return the
`top_n` most common tokens. -/
def _extract_top_keywords (text : String) (top_n : Nat := 10) : List String :=
  let text_lower := pyLower text
  let text_clean := stripPunctuation text_lower
  let words := pySplit text_clean
  let filtered_words := words.filter keywordFilter
  most_common filtered_words top_n

/-- Membership in `firstOccurrences` is membership in the original list. -/
theorem mem_firstOccurrences {l : List String} {a : String} :
    a ∈ firstOccurrences l ↔ a ∈ l := by
  induction l with
  | nil => exact Iff.rfl
  | cons w ws ih =>
    simp only [firstOccurrences, List.mem_cons, List.mem_filter]
    constructor
    · rintro (rfl | ⟨h, _⟩)
      · exact Or.inl rfl
      · exact Or.inr (ih.mp h)
    · rintro (rfl | h)
      · exact Or.inl rfl
      · by_cases hw : a = w
        · exact Or.inl hw
        · refine Or.inr ⟨ih.mpr h, ?_⟩
          simp [hw]

/-- `firstOccurrences` has no duplicates. -/
theorem nodup_firstOccurrences (l : List String) :
    (firstOccurrences l).Nodup := by
  induction l with
  | nil => simp [firstOccurrences]
  | cons w ws ih =>
    simp only [firstOccurrences]
    refine List.Nodup.cons ?_ (ih.filter _)
    intro hmem
    have hcond := (List.mem_filter.mp hmem).2
    simp at hcond

/-- Two distinct members of a list occur in one of the two orders. -/
theorem pair_sublist_or {α : Type} {a b : α} :
    ∀ {l : List α}, a ∈ l → b ∈ l → a ≠ b →
      ([a, b]).Sublist l ∨ ([b, a]).Sublist l := by
  intro l
  induction l with
  | nil => intro ha _ _; cases ha
  | cons x xs ih =>
    intro ha hb hne
    rcases List.mem_cons.mp ha with rfl | ha2
    · have hb2 : b ∈ xs := by
        rcases List.mem_cons.mp hb with hbx | h
        · exact absurd hbx.symm hne
        · exact h
      exact Or.inl (List.Sublist.cons₂ _ (List.singleton_sublist.mpr hb2))
    · rcases List.mem_cons.mp hb with rfl | hb2
      · exact Or.inr (List.Sublist.cons₂ _ (List.singleton_sublist.mpr ha2))
      · rcases ih ha2 hb2 hne with h | h
        · exact Or.inl (h.cons _)
        · exact Or.inr (h.cons _)

/-- In a duplicate-free list, two distinct elements cannot occur in both
orders. -/
theorem not_both_pair_sublists {α : Type} {a b : α} :
    ∀ {s : List α}, s.Nodup → a ≠ b → ([a, b]).Sublist s →
      ([b, a]).Sublist s → False := by
  intro s
  induction s with
  | nil =>
    intro _ _ h1 _
    simp at h1
  | cons x xs ih =>
    intro hn hne h1 h2
    rcases List.nodup_cons.mp hn with ⟨hx, hxs⟩
    cases h1 with
    | cons _ h1h =>
      cases h2 with
      | cons _ h2h => exact ih hxs hne h1h h2h
      | cons₂ _ h2h => exact hx (h1h.subset (by simp))
    | cons₂ _ h1h =>
      cases h2 with
      | cons _ h2h => exact hx (h2h.subset (by simp))
      | cons₂ _ h2h => exact hne rfl

/-- Core property of `most_common`: at most `n` results, no duplicates,
every result occurs in `l`, nothing more frequent is left out, the output
is ordered by non-increasing count, and equal-count results keep their
first-occurrence order. -/
theorem most_common_spec (l : List String) (n : Nat) :
    (most_common l n).length ≤ n ∧
    (most_common l n).Nodup ∧
    (∀ w, w ∈ most_common l n → w ∈ l) ∧
    (∀ w, w ∈ l → w ∉ most_common l n → ∀ v, v ∈ most_common l n →
      l.count w ≤ l.count v) ∧
    (most_common l n).Pairwise (fun a b => l.count b ≤ l.count a) ∧
    (∀ a b, ([a, b]).Sublist (most_common l n) → l.count a = l.count b →
      ([a, b]).Sublist (firstOccurrences l)) := by
  have hperm : ((firstOccurrences l).insertionSort (countOrder l)).Perm
      (firstOccurrences l) :=
    List.perm_insertionSort (countOrder l) (firstOccurrences l)
  have hnodupS : ((firstOccurrences l).insertionSort (countOrder l)).Nodup :=
    hperm.nodup_iff.mpr (nodup_firstOccurrences l)
  have hsorted : ((firstOccurrences l).insertionSort (countOrder l)).Pairwise
      (countOrder l) :=
    List.sorted_insertionSort (countOrder l) (firstOccurrences l)
  have htake : (most_common l n).Sublist
      ((firstOccurrences l).insertionSort (countOrder l)) := by
    simp only [most_common]
    exact List.take_sublist n _
  refine ⟨?_, ?_, ?_, ?_, ?_, ?_⟩
  · simp only [most_common, List.length_take]
    exact min_le_left _ _
  · exact htake.nodup hnodupS
  · intro w hw
    exact mem_firstOccurrences.mp (hperm.mem_iff.mp (htake.subset hw))
  · intro w hwl hw_not v hv
    have hw_not2 : w ∉ ((firstOccurrences l).insertionSort
        (countOrder l)).take n := by
      simpa [most_common] using hw_not
    have hv2 : v ∈ ((firstOccurrences l).insertionSort (countOrder l)).take n := by
      simpa [most_common] using hv
    have hwS : w ∈ (firstOccurrences l).insertionSort (countOrder l) :=
      hperm.mem_iff.mpr (mem_firstOccurrences.mpr hwl)
    have hsplit := List.take_append_drop n
      ((firstOccurrences l).insertionSort (countOrder l))
    have hpair2 : (((firstOccurrences l).insertionSort (countOrder l)).take n ++
        ((firstOccurrences l).insertionSort (countOrder l)).drop n).Pairwise
        (countOrder l) := by
      rw [hsplit]
      exact hsorted
    have hwS2 : w ∈ (((firstOccurrences l).insertionSort (countOrder l)).take n ++
        ((firstOccurrences l).insertionSort (countOrder l)).drop n) := by
      rw [hsplit]
      exact hwS
    rcases List.mem_append.mp hwS2 with h | h
    · exact absurd h hw_not2
    · exact (List.pairwise_append.mp hpair2).2.2 v hv2 w h
  · exact hsorted.sublist htake
  · intro a b hab hcnt
    have habS : ([a, b]).Sublist
        ((firstOccurrences l).insertionSort (countOrder l)) :=
      hab.trans htake
    have hnd : ([a, b] : List String).Nodup := habS.nodup hnodupS
    have hne : a ≠ b := (List.pairwise_cons.mp hnd).1 b (by simp)
    have haF : a ∈ firstOccurrences l :=
      hperm.mem_iff.mp (habS.subset (by simp))
    have hbF : b ∈ firstOccurrences l :=
      hperm.mem_iff.mp (habS.subset (by simp))
    rcases pair_sublist_or haF hbF hne with h | h
    · exact h
    · exfalso
      have hpairba : ([b, a] : List String).Pairwise (countOrder l) :=
        List.pairwise_pair.mpr (le_of_eq hcnt)
      have hbaS : ([b, a]).Sublist
          ((firstOccurrences l).insertionSort (countOrder l)) :=
        List.sublist_insertionSort hpairba h
      exact not_both_pair_sublists hnodupS hne habS hbaS

/-- **C7.** For every input text, top-keyword extraction works over the
lower-cased, punctuation-stripped, whitespace-split tokens; a token passing
the filter (not a stop word, longer than 2 characters, purely alphabetic)
is kept and every kept token passes the filter; the returned list has at
most 10 entries without duplicates, each drawn from the kept tokens; no
kept token outside the result is more frequent than any returned token;
the result is ordered by non-increasing frequency; and two returned tokens
of equal frequency appear in first-encountered order. -/
theorem extract_top_keywords_spec (text : String) :
    (∀ w, w ∈ keywordTokens text → w ∉ STOP_WORDS → 2 < w.length →
      isalpha w = true → w ∈ filteredKeywordTokens text) ∧
    (_extract_top_keywords text 10).length ≤ 10 ∧
    (_extract_top_keywords text 10).Nodup ∧
    (∀ w, w ∈ _extract_top_keywords text 10 →
      w ∈ filteredKeywordTokens text ∧ w ∉ STOP_WORDS ∧ 2 < w.length ∧
        isalpha w = true) ∧
    (∀ w, w ∈ filteredKeywordTokens text →
      w ∉ _extract_top_keywords text 10 →
      ∀ v, v ∈ _extract_top_keywords text 10 →
        (filteredKeywordTokens text).count w ≤
          (filteredKeywordTokens text).count v) ∧
    (_extract_top_keywords text 10).Pairwise
      (fun a b => (filteredKeywordTokens text).count b ≤
        (filteredKeywordTokens text).count a) ∧
    (∀ a b, ([a, b]).Sublist (_extract_top_keywords text 10) →
      (filteredKeywordTokens text).count a =
        (filteredKeywordTokens text).count b →
      ([a, b]).Sublist (firstOccurrences (filteredKeywordTokens text))) := by
  have heq : _extract_top_keywords text 10 =
      most_common (filteredKeywordTokens text) 10 := rfl
  have h := most_common_spec (filteredKeywordTokens text) 10
  rw [heq]
  refine ⟨?_, h.1, h.2.1, ?_, h.2.2.2.1, h.2.2.2.2.1, h.2.2.2.2.2⟩
  · intro w hw hstop hlen halpha
    refine List.mem_filter.mpr ⟨hw, ?_⟩
    simp only [keywordFilter, Bool.and_eq_true, decide_eq_true_eq]
    exact ⟨⟨hstop, hlen⟩, halpha⟩
  · intro w hw
    have hwl := h.2.2.1 w hw
    have hmem := List.mem_filter.mp hwl
    have hf := hmem.2
    simp only [keywordFilter, Bool.and_eq_true, decide_eq_true_eq] at hf
    exact ⟨hwl, hf.1.1, hf.1.2, hf.2⟩

/-- Witness for C7 at a concrete text: `apple` survives the pipeline (the
stop word `the`, the digit-bearing `cat12` and the two-letter `ox` do not)
and is among the returned keywords with the filter facts holding. -/
theorem extract_top_keywords_spec_witness :
    "apple" ∈
      filteredKeywordTokens "Apple banana apple cherry! banana apple the cat12 ox" ∧
    "apple" ∉ STOP_WORDS ∧ 2 < "apple".length ∧ isalpha "apple" = true :=
  (extract_top_keywords_spec
      "Apple banana apple cherry! banana apple the cat12 ox").2.2.2.1
    "apple" (by decide)
